import Mathlib

/-!
Shallow embedding of the digest-service curation pipeline (JavaScript),
covering: the result merger (`src/services/result-merger.js`), the batch
partitioner (`src/services/batch-processor.js`), the article validator
(`src/services/article-formatter.js`), the pre-filter post-state
(`src/services/pre-filter.js`), and the orchestrator's stage sequencing
(`generateDigest`).

Modelling conventions:
* JavaScript objects with optional fields become structures with `Option`
  fields (`none` = the field is absent / `undefined`).
* JavaScript string falsiness (`undefined`, `null`, `''` are falsy) is
  captured by `truthyStr`; `x || d` on strings is `jsOrStr`.
* `new Date().toISOString()` becomes an explicit `now : String` parameter.
* `Array.prototype.sort` with a numeric comparator is required by the
  JS specification to be a stable sort; it is embedded as a stable
  insertion sort (`sortScoreDesc`) on the comparator key
  `(relevance_score || 0)` descending.
* Asynchronous oracle (LLM API) calls are abstracted as explicit
  parameters / outcome values; the number of oracle invocations performed
  on a control path is returned alongside the result.
-/

/-- JavaScript string truthiness: `undefined`/missing and `""` are falsy. -/
def truthyStr : Option String → Option String
  | some s => if s = "" then none else some s
  | none => none

/-- JavaScript `v || d` for an optional string `v` and default `d`. -/
def jsOrStr (v : Option String) (d : String) : String :=
  match truthyStr v with
  | some s => s
  | none => d

/-- JavaScript template-literal interpolation of a possibly-undefined string. -/
def jsToString : Option String → String
  | some s => s
  | none => "undefined"

/-- The `{name, url}` source object shape used by the merger. -/
structure SrcObj where
  name : Option String := none
  url : Option String := none
  deriving DecidableEq, Repr

/-- The `source` field of an article: a string, an object, or absent/non-object. -/
inductive SourceVal where
  | str (s : String)
  | obj (o : SrcObj)
  | missing
  deriving DecidableEq, Repr

/-- An article / candidate story object as it flows through the pipeline.
Optional fields model JS fields that may be `undefined`. -/
structure Article where
  title : Option String := none
  url : Option String := none
  source_name : Option String := none
  summary : Option String := none
  content : Option String := none
  text : Option String := none
  article_id : Option String := none
  id : Option String := none
  category : Option String := none
  priority : Option String := none
  source : SourceVal := .missing
  paragraphs : Option (List String) := none
  relevance_score : Option Int := none
  continued_from_previous : Bool := false
  pre_filter_score : Option Int := none
  pre_filter_reason : Option String := none
  deriving DecidableEq, Repr

/-- One batch's result as consumed by the merger
(`processBatch` return shape: `{batchNumber, articles, skipped, duplicates}`). -/
structure BatchResult where
  batchNumber : Int := 0
  articles : Option (List Article) := none
  skipped : Option Int := none
  duplicates : Option Int := none
  deriving DecidableEq, Repr

/-- Client record (only `name` is read by the merger). -/
structure Client where
  name : String := "Client"
  deriving DecidableEq, Repr

/-- `normalizeArticle` from `result-merger.js`: coerces `source` to object
form, fixes up missing `name`/`url`, coerces `paragraphs` to an array
(synthesising one paragraph from `summary`/`content`), and clears the
legacy `summary`/`content` fields. -/
def normalizeArticle (article : Article) : Article :=
  let source0 : SrcObj :=
    match article.source with
    | .str s => { name := some s, url := some (jsOrStr article.url "") }
    | .obj o => o
    | .missing => { name := some "Unknown Source", url := some (jsOrStr article.url "") }
  let source1 : SrcObj :=
    if truthyStr source0.name = none then
      { source0 with name := some (jsOrStr article.source_name "Unknown Source") }
    else source0
  let source2 : SrcObj :=
    if truthyStr source1.url = none ∧ truthyStr article.url ≠ none then
      { source1 with url := article.url }
    else source1
  let paragraphs : List String :=
    match article.paragraphs with
    | some ps => ps
    | none =>
      let text := jsOrStr article.summary (jsOrStr article.content "")
      if text = "" then [] else [text]
  { article with
      source := .obj source2
      paragraphs := some paragraphs
      summary := none
      content := none }

/-- The sort key used by the merger: `(article.relevance_score || 0)`. -/
def scoreOf (a : Article) : Int := a.relevance_score.getD 0

/-- Stable descending insertion: the new element goes after every element
whose key is ≥ its own (ties keep the earlier element first), mirroring
the stability guarantee of JS `Array.prototype.sort`. -/
def insertDesc (x : Article) : List Article → List Article
  | [] => [x]
  | y :: ys => if scoreOf x ≤ scoreOf y then y :: insertDesc x ys else x :: y :: ys

/-- Insert the elements of the second list, left to right, into the
(descending-sorted) accumulator. -/
def insertAll (acc : List Article) : List Article → List Article
  | [] => acc
  | x :: xs => insertAll (insertDesc x acc) xs

/-- Stable sort by `(relevance_score || 0)` descending: the embedding of
`allFilteredArticles.sort((a, b) => (b.relevance_score || 0) - (a.relevance_score || 0))`. -/
def sortScoreDesc (l : List Article) : List Article := insertAll [] l

/-- All normalized candidate stories collected from the batch results in
batch order (`result-merger.js` lines 58-70). -/
def collectArticles (brs : List BatchResult) : List Article :=
  brs.flatMap (fun r => (r.articles.getD []).map normalizeArticle)

/-- The concatenated, normalized, score-sorted story list the merger
builds its sections from. -/
def mergedArticles (brs : List BatchResult) : List Article :=
  sortScoreDesc (collectArticles brs)

/-- `totalSkipped` accumulator: `totalSkipped += result.skipped || 0`. -/
def totalSkipped (brs : List BatchResult) : Int :=
  brs.foldl (fun s r => s + r.skipped.getD 0) 0

/-- `totalDuplicates` accumulator: `totalDuplicates += result.duplicates || 0`. -/
def totalDuplicates (brs : List BatchResult) : Int :=
  brs.foldl (fun s r => s + r.duplicates.getD 0) 0

/-- `categorizeArticles` from `result-merger.js`: partition by strict
equality of `priority` with `'main'` / `'b_side'`. -/
def categorizeArticles (articles : List Article) : List Article × List Article :=
  (articles.filter (fun a => a.priority == some "main"),
   articles.filter (fun a => a.priority == some "b_side"))

/-- Category sub-section filter: strict equality of `category` with a tag. -/
def filterCat (c : String) (l : List Article) : List Article :=
  l.filter (fun a => a.category == some c)

/-- Digest metadata (`report.metadata` in the merged digest). -/
structure Metadata where
  generated_at : String
  articles_reviewed : Int
  articles_included : Nat
  main_stories : Nat
  b_side_stories : Nat
  duplicates_removed : Int
  batches_processed : Nat
  deriving DecidableEq, Repr

/-- One category-keyed section group (`sections` / `b_side`). -/
structure SectionSet where
  news : List Article
  business : List Article
  politics : List Article
  eu_relations : List Article
  deriving DecidableEq, Repr

/-- The `report` part of the merged digest. -/
structure Report where
  metadata : Metadata
  main_stories : List Article
  sections : SectionSet
  b_side : SectionSet
  deriving DecidableEq, Repr

/-- The `email` part of the merged digest. -/
structure Email where
  subject : String
  body_html : String
  key_highlights : List String
  deriving DecidableEq, Repr

/-- The final merged digest. -/
structure Digest where
  report : Report
  email : Email
  deriving DecidableEq, Repr

/-- `generateEmailSummary` from `result-merger.js`. -/
def generateEmailSummary (sections : List Article × List Article) (client : Client) : Email :=
  let topStories := sections.1.take 3
  let highlights := topStories.map (fun story =>
    jsToString story.title ++ (if story.continued_from_previous then " (Continued)" else ""))
  let bodyHtml :=
    "\n    <p>Dear " ++ client.name ++ ",</p>\n    <p>Here are today's key developments:</p>\n    <ul>\n      "
      ++ String.intercalate "\n      " (highlights.map (fun h => "<li>" ++ h ++ "</li>"))
      ++ "\n    </ul>\n    <p>Best regards,<br>Mundus Digest Team</p>\n  "
  { subject := client.name ++ " Digest: " ++ jsOrStr (topStories.head?.bind Article.title) "Daily Update"
    body_html := bodyHtml.trim
    key_highlights := highlights }

/-- `mergeBatchResults` from `result-merger.js`. The wall-clock reading
`new Date().toISOString()` is the explicit parameter `now`. -/
def mergeBatchResults (batchResults : List BatchResult) (client : Client) (now : String) : Digest :=
  let allFilteredArticles := mergedArticles batchResults
  let sections := categorizeArticles allFilteredArticles
  { report := {
      metadata := {
        generated_at := now
        articles_reviewed :=
          batchResults.foldl
            (fun sum r => sum + ((r.articles.getD []).length : Int) + r.skipped.getD 0) 0
        articles_included := allFilteredArticles.length
        main_stories := sections.1.length
        b_side_stories := sections.2.length
        duplicates_removed := totalDuplicates batchResults
        batches_processed := batchResults.length }
      main_stories := sections.1
      sections := {
        news := filterCat "news" sections.1
        business := filterCat "business" sections.1
        politics := filterCat "politics" sections.1
        eu_relations := filterCat "eu_relations" sections.1 }
      b_side := {
        news := filterCat "news" sections.2
        business := filterCat "business" sections.2
        politics := filterCat "politics" sections.2
        eu_relations := filterCat "eu_relations" sections.2 } }
    email := generateEmailSummary sections client }

/-- `BATCH_SIZE` from `batch-processor.js`. -/
def BATCH_SIZE : Nat := 25

/-- `chunkArticles` from `batch-processor.js` at its default batch size:
`for (let i = 0; i < articles.length; i += 25) chunks.push(articles.slice(i, i + 25))`. -/
def chunkArticles : List Article → List (List Article)
  | [] => []
  | a :: rest => ((a :: rest).take BATCH_SIZE) :: chunkArticles (rest.drop (BATCH_SIZE - 1))
termination_by l => l.length
decreasing_by
  simp only [List.length_drop, List.length_cons]
  omega

/-- `isValidArticle` from `article-formatter.js`:
`article && typeof article === 'object' && (article.title || article.content || article.text)`. -/
def isValidArticle (a : Article) : Bool :=
  (truthyStr a.title).isSome || (truthyStr a.content).isSome || (truthyStr a.text).isSome

/-- `filterValidArticles` from `article-formatter.js`. -/
def filterValidArticles (articles : List Article) : List Article :=
  articles.filter isValidArticle

/-- One entry of the pre-filter oracle's `filtered_articles` tool output
(`article_id`, `relevance_score`, `relevance_reason` are all required by
the tool schema). -/
structure FilterEntry where
  article_id : String
  relevance_score : Int
  relevance_reason : String
  deriving DecidableEq, Repr

/-- `article.article_id || article.id` as used twice in `preFilterArticles`. -/
def preFilterJsId (a : Article) : Option String :=
  match truthyStr a.article_id with
  | some s => some s
  | none => truthyStr a.id

/-- Whether an article passes the id-membership filter
(`filteredIds.includes(article.article_id || article.id)`). -/
def preFilterSelected (fr : List FilterEntry) (a : Article) : Bool :=
  match preFilterJsId a with
  | some s => (fr.map (fun fa => fa.article_id)).contains s
  | none => false

/-- The in-place annotation `preFilterArticles` performs on each selected
article object (`article.pre_filter_score = ...; article.pre_filter_reason = ...`). -/
def annotateFromFilter (fr : List FilterEntry) (a : Article) : Article :=
  match preFilterJsId a with
  | some s =>
    match fr.find? (fun fa => fa.article_id == s) with
    | some fd => { a with
        pre_filter_score := some fd.relevance_score
        pre_filter_reason := some fd.relevance_reason }
    | none => a
  | none => a

/-- The caller's article array after `preFilterArticles` returns: because
`articles.filter(...)` shares its element objects with the caller's array,
the `forEach` mutation on the filtered list is visible on the caller's
original objects. Selected articles are annotated in place; the rest are
untouched. -/
def preFilterPostArticles (articles : List Article) (fr : List FilterEntry) : List Article :=
  articles.map (fun a => if preFilterSelected fr a then annotateFromFilter fr a else a)

/-- Outcome of the stage-1 pre-filter call as seen by the orchestrator:
either the filtered list it returned, or a thrown error. -/
inductive PreOutcome where
  | ok (selected : List Article)
  | failed
  deriving DecidableEq, Repr

/-- `context?.topics || client.preferences?.topics || []` (a present array,
even empty, short-circuits the JS `||` chain because arrays are truthy). -/
def resolveTopics (ctxTopics cliTopics : Option (List String)) : List String :=
  ((ctxTopics).orElse (fun _ => cliTopics)).getD []

/-- The orchestrator `generateDigest` (two-stage variant): validation,
document normalization, stage-1 pre-filter with fallback, stage-2 batch
extraction, merge. Oracle interaction is abstracted: `pre` is the
pre-filter call's outcome and `oracle` maps each batch to its extraction
result (stage-2 success is assumed, which is the only path the claims
examine). The second component counts oracle invocations performed:
one per pre-filter attempt plus one per processed batch. `articles?` is
`none` when the caller passed no `articles` value at all. -/
def runPipeline (articles? : Option (List Article)) (ctxTopics cliTopics : Option (List String))
    (pre : PreOutcome) (oracle : List Article → BatchResult) (client : Client) (now : String) :
    Except String Digest × Nat :=
  match articles? with
  | none => (.error "Articles array is required and cannot be empty", 0)
  | some articles =>
    if articles.length = 0 then
      (.error "Articles array is required and cannot be empty", 0)
    else
      let validArticles := filterValidArticles articles
      if validArticles.length = 0 then
        (.error "No valid articles provided", 0)
      else
        let topics := resolveTopics ctxTopics cliTopics
        if 0 < topics.length ∧ 100 < validArticles.length then
          match pre with
          | .ok selected =>
            let batches := chunkArticles selected
            (.ok (mergeBatchResults (batches.map oracle) client now), 1 + batches.length)
          | .failed =>
            let batches := chunkArticles (validArticles.take 100)
            (.ok (mergeBatchResults (batches.map oracle) client now), 1 + batches.length)
        else
          let batches := chunkArticles (validArticles.take 100)
          (.ok (mergeBatchResults (batches.map oracle) client now), batches.length)

/-- Clear the two pre-filter annotation fields. -/
def eraseAnnotations (a : Article) : Article :=
  { a with pre_filter_score := none, pre_filter_reason := none }

/-- Clear the digest's wall-clock stamp. -/
def eraseGeneratedAt (d : Digest) : Digest :=
  { d with report := { d.report with
      metadata := { d.report.metadata with generated_at := "" } } }

/-- Number of candidate stories reported by one batch (`r.articles?.length || 0`). -/
def numCandidates (r : BatchResult) : Nat := (r.articles.getD []).length

/-- Spec-worded reviewed count (what sentence `articles_reviewed = Σ(batch
candidates + skipped + duplicates)` denotes), for comparison with the
code's own metadata computation. -/
def specArticlesReviewed (brs : List BatchResult) : Int :=
  (brs.map (fun r =>
    (numCandidates r : Int) + r.skipped.getD 0 + r.duplicates.getD 0)).sum

/-- Default client for concrete evaluations. -/
def defClient : Client := { name := "Mundus" }

/-- C1 counterexample input: one batch with no candidates, 2 skipped, 3 duplicates. -/
def c1cex : List BatchResult := [{ articles := some [], skipped := some 2, duplicates := some 3 }]

/-- C2 counterexample input: a `main` story with an out-of-range score and
an out-of-enum category survives the merger untouched. -/
def c2cexArt : Article :=
  { title := some "T2", priority := some "main", category := some "sports",
    relevance_score := some 99 }

/-- C2 counterexample batch list. -/
def c2cex : List BatchResult := [{ articles := some [c2cexArt] }]

/-- C2 witness input: a well-formed `main`/`news` story. -/
def c2witArt : Article :=
  { title := some "W2", priority := some "main", category := some "news",
    relevance_score := some 7 }

/-- C2 witness batch list. -/
def c2witbr : List BatchResult := [{ articles := some [c2witArt] }]

/-- C5 counterexample input: a story with no paragraphs, no legacy text and
no priority at all. -/
def c5cexArt : Article := { title := some "T5" }

/-- C5 counterexample batch list. -/
def c5cex : List BatchResult := [{ articles := some [c5cexArt] }]

/-- A structurally valid candidate document. -/
def validDoc : Article := { title := some "Doc", text := some "body" }

/-- C6 witness pool: 101 valid documents, which exceeds the 100-document
pre-filter threshold. -/
def c6arts : List Article := List.replicate 101 validDoc

/-- A stage-2 oracle stub returning an empty batch result. -/
def constOracle : List Article → BatchResult := fun _ => { articles := some [] }

/-- C7 counterexample document: carries an `article_id` the filter output names. -/
def c7cexArt : Article := { title := some "T7", article_id := some "a1" }

/-- C7 counterexample filter output. -/
def c7fr : List FilterEntry := [{ article_id := "a1", relevance_score := 8, relevance_reason := "on topic" }]

/-- C10 example article: misspelled priority, out-of-enum category. -/
def c10cexArt : Article :=
  { title := some "T10", priority := some "side", category := some "sports",
    relevance_score := some 5 }

/-- C10 example batch list. -/
def c10br : List BatchResult := [{ articles := some [c10cexArt] }]

/-- The stories of a list whose sort key equals `k`; equality of these
slices before and after sorting is the standard statement of stability. -/
def filterScore (k : Int) (l : List Article) : List Article :=
  l.filter (fun a => scoreOf a == k)

theorem mem_insertDesc {z x : Article} {l : List Article} :
    z ∈ insertDesc x l ↔ z = x ∨ z ∈ l := by
  induction l with
  | nil => simp [insertDesc]
  | cons y ys ih =>
    simp only [insertDesc]
    split
    · simp only [List.mem_cons, ih]
      tauto
    · simp [List.mem_cons]

theorem pairwise_insertDesc {x : Article} {l : List Article}
    (h : l.Pairwise (fun a b => scoreOf b ≤ scoreOf a)) :
    (insertDesc x l).Pairwise (fun a b => scoreOf b ≤ scoreOf a) := by
  induction l with
  | nil => simp [insertDesc]
  | cons y ys ih =>
    rw [List.pairwise_cons] at h
    obtain ⟨hy, hys⟩ := h
    simp only [insertDesc]
    split
    case isTrue hle =>
      rw [List.pairwise_cons]
      refine ⟨fun z hz => ?_, ih hys⟩
      rcases mem_insertDesc.mp hz with rfl | hz
      · exact hle
      · exact hy z hz
    case isFalse hgt =>
      rw [List.pairwise_cons]
      refine ⟨fun z hz => ?_, List.pairwise_cons.mpr ⟨hy, hys⟩⟩
      rcases List.mem_cons.mp hz with rfl | hz
      · omega
      · have := hy z hz
        omega

theorem pairwise_insertAll {l : List Article} :
    ∀ {acc : List Article}, acc.Pairwise (fun a b => scoreOf b ≤ scoreOf a) →
      (insertAll acc l).Pairwise (fun a b => scoreOf b ≤ scoreOf a) := by
  induction l with
  | nil => intro acc h; exact h
  | cons x xs ih => intro acc h; exact ih (pairwise_insertDesc h)

theorem sorted_sortScoreDesc (l : List Article) :
    (sortScoreDesc l).Pairwise (fun a b => scoreOf b ≤ scoreOf a) :=
  pairwise_insertAll List.Pairwise.nil

theorem filterScore_nil_of_lt {k : Int} {l : List Article}
    (h : ∀ a ∈ l, scoreOf a < k) : filterScore k l = [] := by
  induction l with
  | nil => rfl
  | cons y ys ih =>
    have hy := h y (List.mem_cons_self y ys)
    have hb : (scoreOf y == k) = false := by
      simp only [beq_eq_false_iff_ne, ne_eq]
      omega
    simp only [filterScore, List.filter_cons, hb, Bool.false_eq_true, if_false]
    exact ih (fun a ha => h a (List.mem_cons_of_mem y ha))

theorem filterScore_insertDesc {k : Int} {x : Article} {l : List Article}
    (h : l.Pairwise (fun a b => scoreOf b ≤ scoreOf a)) :
    filterScore k (insertDesc x l)
      = filterScore k l ++ (if scoreOf x = k then [x] else []) := by
  induction l with
  | nil =>
    simp only [insertDesc, filterScore, List.filter_cons, List.filter_nil]
    split <;> simp_all
  | cons y ys ih =>
    rw [List.pairwise_cons] at h
    obtain ⟨hy, hys⟩ := h
    simp only [insertDesc]
    split
    case isTrue hle =>
      simp only [filterScore, List.filter_cons] at *
      rw [ih hys]
      split <;> simp
    case isFalse hgt =>
      by_cases hk : scoreOf x = k
      · have hnil : filterScore k (y :: ys) = [] := by
          refine filterScore_nil_of_lt fun a ha => ?_
          rcases List.mem_cons.mp ha with rfl | ha
          · omega
          · have := hy a ha
            omega
        simp only [filterScore] at hnil ⊢
        simp [List.filter_cons, hk, hnil]
      · have hbx : (scoreOf x == k) = false := by
          simp only [beq_eq_false_iff_ne, ne_eq]
          exact hk
        simp [filterScore, List.filter_cons, hbx, hk]

theorem filterScore_insertAll {k : Int} {l : List Article} :
    ∀ {acc : List Article}, acc.Pairwise (fun a b => scoreOf b ≤ scoreOf a) →
      filterScore k (insertAll acc l) = filterScore k acc ++ filterScore k l := by
  induction l with
  | nil => intro acc h; simp [insertAll, filterScore]
  | cons x xs ih =>
    intro acc h
    simp only [insertAll]
    rw [ih (pairwise_insertDesc h), filterScore_insertDesc h]
    simp only [filterScore, List.filter_cons]
    split
    case isTrue hx =>
      have : scoreOf x = k := by simpa using hx
      simp [this, List.append_assoc]
    case isFalse hx =>
      have : ¬ scoreOf x = k := by simpa using hx
      simp [this]

theorem filterScore_sortScoreDesc (k : Int) (l : List Article) :
    filterScore k (sortScoreDesc l) = filterScore k l := by
  have := @filterScore_insertAll k l [] List.Pairwise.nil
  simpa [sortScoreDesc, filterScore] using this

theorem chunkArticles_length (l : List Article) :
    (chunkArticles l).length = (l.length + 24) / 25 := by
  induction l using chunkArticles.induct with
  | case1 => simp [chunkArticles]
  | case2 a rest ih =>
    rw [chunkArticles]
    simp only [List.length_cons, List.length_drop, BATCH_SIZE] at *
    omega

theorem chunkArticles_flatten (l : List Article) :
    (chunkArticles l).flatten = l := by
  induction l using chunkArticles.induct with
  | case1 => simp [chunkArticles]
  | case2 a rest ih =>
    rw [chunkArticles]
    rw [List.flatten_cons, ih]
    have hstep : (a :: rest).take BATCH_SIZE ++ rest.drop (BATCH_SIZE - 1)
        = a :: (rest.take 24 ++ rest.drop 24) := rfl
    rw [hstep, List.take_append_drop]

theorem chunkArticles_eq_nil_iff (l : List Article) :
    chunkArticles l = [] ↔ l = [] := by
  cases l <;> simp [chunkArticles]

theorem chunkArticles_dropLast (l : List Article) :
    ∀ b ∈ (chunkArticles l).dropLast, b.length = 25 := by
  induction l using chunkArticles.induct with
  | case1 => simp [chunkArticles]
  | case2 a rest ih =>
    rw [chunkArticles]
    intro b hb
    cases hrec : chunkArticles (rest.drop (BATCH_SIZE - 1)) with
    | nil => rw [hrec] at hb; simp at hb
    | cons c cs =>
      rw [hrec] at hb
      have hlen : 24 < rest.length := by
        have hne : rest.drop (BATCH_SIZE - 1) ≠ [] := by
          intro hnil
          rw [hnil] at hrec
          simp [chunkArticles] at hrec
        have := List.drop_eq_nil_iff.not.mp hne
        simp only [BATCH_SIZE] at this
        omega
      rw [List.dropLast_cons₂] at hb
      rcases List.mem_cons.mp hb with rfl | hb
      · simp only [List.length_take, List.length_cons, BATCH_SIZE]
        omega
      · rw [← hrec] at hb
        exact ih b hb

theorem foldl_add_int {α : Type} (f : α → Int) (l : List α) (i : Int) :
    l.foldl (fun s r => s + f r) i = i + (l.map f).sum := by
  induction l generalizing i with
  | nil => simp
  | cons x xs ih =>
    simp only [List.foldl_cons, List.map_cons, List.sum_cons, ih]
    ring

theorem mem_filterPriority {l : List Article} {p : String} {a : Article}
    (h : a ∈ l.filter (fun a => a.priority == some p)) : a.priority = some p := by
  have := (List.mem_filter.mp h).2
  simpa using this

theorem mem_filterCat {l : List Article} {c : String} {a : Article}
    (h : a ∈ filterCat c l) : a.category = some c := by
  have := (List.mem_filter.mp h).2
  simpa using this

theorem not_mem_filterPriority {l : List Article} {p : String} {a : Article}
    (h : a.priority ≠ some p) : a ∉ l.filter (fun a => a.priority == some p) := by
  intro hmem
  exact h (mem_filterPriority hmem)

theorem not_mem_filterCat {l : List Article} {c : String} {a : Article}
    (h : a.category ≠ some c) : a ∉ filterCat c l := by
  intro hmem
  exact h (mem_filterCat hmem)

/-- C1: the claim that `articles_reviewed` equals the sum over batches of
(candidates + skipped + duplicates) is false on the code: the reduction at
`result-merger.js:87` adds only candidates and skipped, omitting the
duplicate counter. With one batch of 0 candidates, 2 skipped and
3 duplicates the code reports 2 while the claimed formula gives 5. -/
theorem c1_reviewed_cex :
    (mergeBatchResults c1cex defClient "t").report.metadata.articles_reviewed ≠
      specArticlesReviewed c1cex := by decide

/-- C1 (amended): for every list of BatchResults, `articles_reviewed` in
the merged digest equals the sum over batches of (number of candidate
stories + the skipped counter) — duplicates are *not* included; the
duplicate counters are accumulated separately into `duplicates_removed`. -/
theorem c1_reviewed_amended (brs : List BatchResult) (c : Client) (t : String) :
    (mergeBatchResults brs c t).report.metadata.articles_reviewed =
      (brs.map (fun r => (numCandidates r : Int) + r.skipped.getD 0)).sum ∧
    (mergeBatchResults brs c t).report.metadata.duplicates_removed =
      (brs.map (fun r => r.duplicates.getD 0)).sum := by
  constructor
  · show brs.foldl
      (fun sum r => sum + ((r.articles.getD []).length : Int) + r.skipped.getD 0) 0 = _
    have hbody : (fun (sum : Int) (r : BatchResult) =>
          sum + ((r.articles.getD []).length : Int) + r.skipped.getD 0)
        = (fun sum r => sum + (((r.articles.getD []).length : Int) + r.skipped.getD 0)) := by
      funext s r
      ring
    rw [hbody, foldl_add_int]
    simp [numCandidates]
  · show totalDuplicates brs = _
    rw [totalDuplicates, foldl_add_int]
    simp

/-- C2: the claim that every CandidateStory contained in a MergedDigest has
`relevance_score ∈ [0,10]` and `category` among the four fixed tags is
false on the code: the merger performs no validation, so a batch story
with score 99 and category `sports` survives into `report.main_stories`. -/
theorem c2_bounds_cex :
    (normalizeArticle c2cexArt) ∈ (mergeBatchResults c2cex defClient "t").report.main_stories ∧
    (normalizeArticle c2cexArt).relevance_score = some 99 ∧
    (normalizeArticle c2cexArt).category = some "sports" ∧
    ¬((0 : Int) ≤ scoreOf (normalizeArticle c2cexArt) ∧
      scoreOf (normalizeArticle c2cexArt) ≤ 10) := by decide

/-- C2 (amended): the structural guarantees that actually hold are the ones
the partitioning filters enforce: every story in `report.main_stories` has
priority `main`; every story in a category sub-section of `sections`
(resp. `b_side`) has priority `main` (resp. `b_side`) and that section's
category. Relevance scores and categories are not otherwise validated. -/
theorem c2_bounds_amended (brs : List BatchResult) (c : Client) (t : String) :
    (∀ a ∈ (mergeBatchResults brs c t).report.main_stories, a.priority = some "main") ∧
    (∀ a ∈ (mergeBatchResults brs c t).report.sections.news,
        a.priority = some "main" ∧ a.category = some "news") ∧
    (∀ a ∈ (mergeBatchResults brs c t).report.sections.business,
        a.priority = some "main" ∧ a.category = some "business") ∧
    (∀ a ∈ (mergeBatchResults brs c t).report.sections.politics,
        a.priority = some "main" ∧ a.category = some "politics") ∧
    (∀ a ∈ (mergeBatchResults brs c t).report.sections.eu_relations,
        a.priority = some "main" ∧ a.category = some "eu_relations") ∧
    (∀ a ∈ (mergeBatchResults brs c t).report.b_side.news,
        a.priority = some "b_side" ∧ a.category = some "news") ∧
    (∀ a ∈ (mergeBatchResults brs c t).report.b_side.business,
        a.priority = some "b_side" ∧ a.category = some "business") ∧
    (∀ a ∈ (mergeBatchResults brs c t).report.b_side.politics,
        a.priority = some "b_side" ∧ a.category = some "politics") ∧
    (∀ a ∈ (mergeBatchResults brs c t).report.b_side.eu_relations,
        a.priority = some "b_side" ∧ a.category = some "eu_relations") := by
  simp only [mergeBatchResults, categorizeArticles]
  refine ⟨fun a ha => mem_filterPriority ha, ?_, ?_, ?_, ?_, ?_, ?_, ?_, ?_⟩ <;>
    exact fun a ha =>
      ⟨mem_filterPriority ((List.mem_filter.mp ha).1), mem_filterCat ha⟩

/-- C2 witness: the amended statement instantiated at a digest holding one
well-formed `main`/`news` story. -/
theorem c2_bounds_amended_witness :
    (normalizeArticle c2witArt).priority = some "main" ∧
    (normalizeArticle c2witArt).category = some "news" := by
  have h := c2_bounds_amended c2witbr defClient "t"
  have hmem : normalizeArticle c2witArt
      ∈ (mergeBatchResults c2witbr defClient "t").report.sections.news := by decide
  exact h.2.1 _ hmem

/-- C3: the claim that re-running the merger on the same batch-result list
yields a byte-identical MergedDigest is false on the code: the metadata
embeds `new Date().toISOString()`, so two calls at different clock
readings differ in `generated_at`. -/
theorem c3_idempotence_cex :
    mergeBatchResults [] defClient "2025-11-11T07:00:00.000Z" ≠
      mergeBatchResults [] defClient "2025-11-11T07:00:00.001Z" := by decide

/-- C3 (amended): re-running the merger on the same batch-result list (same
order) is deterministic up to the `generated_at` wall-clock stamp: with
that field blanked the two outputs are byte-identical (and with the clock
reading held fixed the whole digest is reproduced exactly). -/
theorem c3_idempotence_amended (brs : List BatchResult) (c : Client) (t₁ t₂ : String) :
    eraseGeneratedAt (mergeBatchResults brs c t₁)
      = eraseGeneratedAt (mergeBatchResults brs c t₂) := rfl

/-- C4: `chunkArticles` at its default capacity 25 produces exactly
⌈n/25⌉ batches (as `(n + 24) / 25` in natural division), every batch
except possibly the last has exactly 25 elements, and concatenating the
batches in order restores the input list (contiguous, order-preserving,
no overlap). -/
theorem c4_chunk_spec (l : List Article) :
    (chunkArticles l).length = (l.length + 24) / 25 ∧
    ((chunkArticles l).dropLast.all (fun b => b.length == 25)) = true ∧
    (chunkArticles l).flatten = l := by
  refine ⟨chunkArticles_length l, ?_, chunkArticles_flatten l⟩
  rw [List.all_eq_true]
  intro b hb
  simpa using chunkArticles_dropLast l b hb

/-- C5: the claim that a story with no priority value is treated as
priority `b_side` in the final digest is false on the code:
`categorizeArticles` uses strict equality, so a story whose priority is
absent lands in *neither* priority tier — with one such story the digest
counts it (`articles_included = 1`) but `b_side_stories = 0` and
`main_stories = 0`. (The paragraph default to `[]` does hold.) -/
theorem c5_defaults_cex :
    (normalizeArticle c5cexArt).paragraphs = some [] ∧
    (mergeBatchResults c5cex defClient "t").report.metadata.articles_included = 1 ∧
    (mergeBatchResults c5cex defClient "t").report.metadata.b_side_stories = 0 ∧
    (mergeBatchResults c5cex defClient "t").report.metadata.main_stories = 0 := by decide

/-- C5 (amended): a story missing required fields is defaulted rather than
rejected, but conservatively only for paragraphs: with no paragraphs array
and no legacy summary/content text the normalized story gets an empty
paragraph list; a story with no priority value is still counted in
`articles_included` yet is assigned to neither the main nor the b_side
section (it is not defaulted to `b_side`). -/
theorem c5_defaults_amended (a : Article) (c : Client) (t : String)
    (hp : a.paragraphs = none) (hs : truthyStr a.summary = none)
    (hc : truthyStr a.content = none) (hpr : a.priority = none) :
    (normalizeArticle a).paragraphs = some [] ∧
    (mergeBatchResults [{ articles := some [a] }] c t).report.metadata.articles_included = 1 ∧
    (mergeBatchResults [{ articles := some [a] }] c t).report.main_stories = [] ∧
    (mergeBatchResults [{ articles := some [a] }] c t).report.b_side
      = { news := [], business := [], politics := [], eu_relations := [] } := by
  have hmerged : mergedArticles [{ articles := some [a] }] = [normalizeArticle a] := by
    simp [mergedArticles, collectArticles, sortScoreDesc, insertAll, insertDesc]
  have hprio : (normalizeArticle a).priority = none := by
    simp [normalizeArticle, hpr]
  have hpar : (normalizeArticle a).paragraphs = some [] := by
    simp [normalizeArticle, hp, jsOrStr, hs, hc]
  refine ⟨hpar, ?_, ?_, ?_⟩ <;>
    simp [mergeBatchResults, categorizeArticles, filterCat, hmerged, hprio]

/-- C5 witness: the amended statement instantiated at a concrete story
that has only a title. -/
theorem c5_defaults_amended_witness :
    c5cexArt.paragraphs = none ∧
    (normalizeArticle c5cexArt).paragraphs = some [] ∧
    (mergeBatchResults [{ articles := some [c5cexArt] }] defClient "t").report.main_stories
      = [] := by
  have h := c5_defaults_amended c5cexArt defClient "t" rfl rfl rfl rfl
  exact ⟨rfl, h.1, h.2.2.1⟩

/-- C6: when the stage-1 pre-filter was attempted (topics configured and
more than 100 valid documents) and its oracle call fails, the orchestrator
does not abort: it falls back to the first 100 valid documents unfiltered
and proceeds to batch extraction, producing a full merged digest (one
oracle call was spent on the failed pre-filter, plus one per batch). -/
theorem c6_prefilter_fallback (arts : List Article) (ctxT cliT : Option (List String))
    (oracle : List Article → BatchResult) (c : Client) (t : String)
    (htop : resolveTopics ctxT cliT ≠ []) (hlen : 100 < (filterValidArticles arts).length) :
    runPipeline (some arts) ctxT cliT .failed oracle c t =
      (.ok (mergeBatchResults
              ((chunkArticles ((filterValidArticles arts).take 100)).map oracle) c t),
       1 + (chunkArticles ((filterValidArticles arts).take 100)).length) := by
  have hfle : (filterValidArticles arts).length ≤ arts.length :=
    List.length_filter_le _ _
  have harts : ¬ arts.length = 0 := by omega
  have hvalid : ¬ (filterValidArticles arts).length = 0 := by omega
  have htl : 0 < (resolveTopics ctxT cliT).length := List.length_pos.mpr htop
  simp only [runPipeline]
  rw [if_neg harts, if_neg hvalid, if_pos ⟨htl, hlen⟩]

/-- C6 witness: a pool of 101 valid documents with a topic profile, whose
pre-filter call fails, is truncated to its first 100 valid documents and
still yields a full digest. -/
theorem c6_prefilter_fallback_witness :
    resolveTopics (some ["Energy"]) none ≠ [] ∧
    100 < (filterValidArticles c6arts).length ∧
    runPipeline (some c6arts) (some ["Energy"]) none .failed constOracle defClient "t" =
      (.ok (mergeBatchResults
              ((chunkArticles ((filterValidArticles c6arts).take 100)).map constOracle)
              defClient "t"),
       1 + (chunkArticles ((filterValidArticles c6arts).take 100)).length) := by
  have h1 : resolveTopics (some ["Energy"]) none ≠ [] := by decide
  have h2 : 100 < (filterValidArticles c6arts).length := by decide
  exact ⟨h1, h2, c6_prefilter_fallback c6arts (some ["Energy"]) none constOracle defClient "t" h1 h2⟩

/-- C7: the claim that no pipeline stage mutates the caller's document
objects is false on the code: `preFilterArticles` assigns
`pre_filter_score`/`pre_filter_reason` directly on the article objects it
selected, and `Array.prototype.filter` shares those objects with the
caller's array — so after the call the caller's array differs from what
was supplied. -/
theorem c7_no_mutation_cex :
    preFilterPostArticles [c7cexArt] c7fr ≠ [c7cexArt] := by decide

/-- C7 (amended): the pre-filter annotates the selected caller documents in
place: after the call, every document is unchanged except possibly its two
pre-filter annotation fields, and every document the filter did not select
is untouched. -/
theorem c7_no_mutation_amended (arts : List Article) (fr : List FilterEntry) :
    (preFilterPostArticles arts fr).map eraseAnnotations = arts.map eraseAnnotations ∧
    preFilterPostArticles (arts.filter (fun a => !(preFilterSelected fr a))) fr
      = arts.filter (fun a => !(preFilterSelected fr a)) := by
  constructor
  · have keyAnn : ∀ a : Article,
        eraseAnnotations (annotateFromFilter fr a) = eraseAnnotations a := by
      intro a
      unfold annotateFromFilter
      split
      · split
        · rfl
        · rfl
      · rfl
    have key : ∀ a : Article,
        eraseAnnotations (if preFilterSelected fr a then annotateFromFilter fr a else a)
          = eraseAnnotations a := by
      intro a
      split
      · exact keyAnn a
      · rfl
    unfold preFilterPostArticles
    rw [List.map_map]
    exact List.map_congr_left (fun a _ => key a)
  · have key2 : ∀ a ∈ arts.filter (fun a => !(preFilterSelected fr a)),
        (if preFilterSelected fr a then annotateFromFilter fr a else a) = a := by
      intro a ha
      have hsel := (List.mem_filter.mp ha).2
      simp only [Bool.not_eq_true'] at hsel
      simp [hsel]
    unfold preFilterPostArticles
    rw [List.map_congr_left key2]
    simp

/-- C8: an absent or empty document pool makes the pipeline fail
immediately with the validation error, and no oracle call is made (the
oracle-invocation count of the run is 0). -/
theorem c8_empty_pool (ctxT cliT : Option (List String)) (pre : PreOutcome)
    (oracle : List Article → BatchResult) (c : Client) (t : String) :
    runPipeline none ctxT cliT pre oracle c t
        = (.error "Articles array is required and cannot be empty", 0) ∧
    runPipeline (some []) ctxT cliT pre oracle c t
        = (.error "Articles array is required and cannot be empty", 0) :=
  ⟨rfl, rfl⟩

/-- C9: the concatenated story list the merger builds its digest from is
sorted by `(relevance_score || 0)` descending, and the sort is stable: for
every score value, the stories carrying that score appear in exactly their
batch/extraction order (the JS runtime guarantees `Array.prototype.sort`
is stable); `report.main_stories` is the priority-`main` filter of that
sorted list. -/
theorem c9_sort_stable (brs : List BatchResult) (c : Client) (t : String) :
    (mergedArticles brs).Pairwise (fun a b => scoreOf b ≤ scoreOf a) ∧
    (∀ k : Int, filterScore k (mergedArticles brs) = filterScore k (collectArticles brs)) ∧
    (mergeBatchResults brs c t).report.main_stories
      = (mergedArticles brs).filter (fun a => a.priority == some "main") :=
  ⟨sorted_sortScoreDesc _, fun k => filterScore_sortScoreDesc k _, rfl⟩

/-- C10: a merged story whose priority is neither `main` nor `b_side` is
still counted in `articles_included` (which counts every merged story) but
appears in neither the main list nor any priority section; a story whose
category is outside the four fixed tags appears in no category
sub-section; and on a concrete input with one such story,
`main_stories + b_side_stories` is strictly less than `articles_included`. -/
theorem c10_uncategorized_stories :
    (∀ (brs : List BatchResult) (c : Client) (t : String) (a : Article),
        a ∈ mergedArticles brs → a.priority ≠ some "main" → a.priority ≠ some "b_side" →
        (mergeBatchResults brs c t).report.metadata.articles_included
            = (mergedArticles brs).length ∧
        a ∉ (mergeBatchResults brs c t).report.main_stories ∧
        a ∉ (mergeBatchResults brs c t).report.sections.news ∧
        a ∉ (mergeBatchResults brs c t).report.sections.business ∧
        a ∉ (mergeBatchResults brs c t).report.sections.politics ∧
        a ∉ (mergeBatchResults brs c t).report.sections.eu_relations ∧
        a ∉ (mergeBatchResults brs c t).report.b_side.news ∧
        a ∉ (mergeBatchResults brs c t).report.b_side.business ∧
        a ∉ (mergeBatchResults brs c t).report.b_side.politics ∧
        a ∉ (mergeBatchResults brs c t).report.b_side.eu_relations) ∧
    (∀ (brs : List BatchResult) (c : Client) (t : String) (a : Article),
        a ∈ mergedArticles brs →
        a.category ≠ some "news" → a.category ≠ some "business" →
        a.category ≠ some "politics" → a.category ≠ some "eu_relations" →
        a ∉ (mergeBatchResults brs c t).report.sections.news ∧
        a ∉ (mergeBatchResults brs c t).report.sections.business ∧
        a ∉ (mergeBatchResults brs c t).report.sections.politics ∧
        a ∉ (mergeBatchResults brs c t).report.sections.eu_relations ∧
        a ∉ (mergeBatchResults brs c t).report.b_side.news ∧
        a ∉ (mergeBatchResults brs c t).report.b_side.business ∧
        a ∉ (mergeBatchResults brs c t).report.b_side.politics ∧
        a ∉ (mergeBatchResults brs c t).report.b_side.eu_relations) ∧
    ((mergeBatchResults c10br defClient "t").report.metadata.main_stories
        + (mergeBatchResults c10br defClient "t").report.metadata.b_side_stories
      < (mergeBatchResults c10br defClient "t").report.metadata.articles_included) := by
  refine ⟨?_, ?_, by decide⟩
  · intro brs c t a hmem hm hb
    have hnm : a ∉ (mergedArticles brs).filter (fun a => a.priority == some "main") :=
      not_mem_filterPriority hm
    have hnb : a ∉ (mergedArticles brs).filter (fun a => a.priority == some "b_side") :=
      not_mem_filterPriority hb
    simp only [mergeBatchResults, categorizeArticles, filterCat]
    exact ⟨trivial, hnm,
      fun h => hnm (List.mem_filter.mp h).1, fun h => hnm (List.mem_filter.mp h).1,
      fun h => hnm (List.mem_filter.mp h).1, fun h => hnm (List.mem_filter.mp h).1,
      fun h => hnb (List.mem_filter.mp h).1, fun h => hnb (List.mem_filter.mp h).1,
      fun h => hnb (List.mem_filter.mp h).1, fun h => hnb (List.mem_filter.mp h).1⟩
  · intro brs c t a hmem h1 h2 h3 h4
    simp only [mergeBatchResults, categorizeArticles]
    exact ⟨not_mem_filterCat h1, not_mem_filterCat h2, not_mem_filterCat h3,
      not_mem_filterCat h4, not_mem_filterCat h1, not_mem_filterCat h2,
      not_mem_filterCat h3, not_mem_filterCat h4⟩

/-- C10 witness: a story with priority `side` (misspelled) and category
`sports` is in the merged list but in none of the digest's sections. -/
theorem c10_uncategorized_witness :
    (normalizeArticle c10cexArt ∈ mergedArticles c10br) ∧
    normalizeArticle c10cexArt ∉ (mergeBatchResults c10br defClient "t").report.main_stories ∧
    normalizeArticle c10cexArt ∉ (mergeBatchResults c10br defClient "t").report.sections.news ∧
    normalizeArticle c10cexArt ∉ (mergeBatchResults c10br defClient "t").report.b_side.news := by
  have hmem : normalizeArticle c10cexArt ∈ mergedArticles c10br := by decide
  have h1 := c10_uncategorized_stories.1 c10br defClient "t" _ hmem (by decide) (by decide)
  have h2 := c10_uncategorized_stories.2.1 c10br defClient "t" _ hmem
    (by decide) (by decide) (by decide) (by decide)
  exact ⟨hmem, h1.2.1, h2.1, h1.2.2.2.2.2.2.1⟩
